import Mathlib

/-!
Verification of the ADSR envelope core of the `music` repository
(`src/music/core/filters/adsr.py`): the Envelope Assembler `adsr` and the
Stereo Adapter `adsr_stereo`, shallowly embedded over exact rationals.

Python floats are modelled as `ℚ`; a Python call that raises an exception
is modelled as `none : Option _`.  The curve-generator library functions
`fade` and `loud` are not part of the repository sources available here,
so they are modelled from the spec at the level of their contracts (see
the doc comments on `fade` and `loud` below).
-/

namespace Music

/-- A Python value that is either a plain scalar number or an array-like
(list) of numbers: the source's `alpha`, `db_dev` and `to_zero` parameters
accept either. -/
inductive Param where
  | scalar (x : ℚ)
  | arr (xs : List ℚ)
deriving DecidableEq, Repr

/-- Python `int(q)`: truncation toward zero, as applied by the source to
`envelope_duration * sample_rate` and to the millisecond conversions.
On a rational in lowest terms this is the T-rounded quotient of numerator
by denominator. -/
def pyInt (q : ℚ) : ℤ :=
  q.num.tdiv q.den

/-- Python `/` as used at `perc = to_zero / attack_duration` in the source:
dividing a scalar by zero raises `ZeroDivisionError`, and dividing a plain
list by a number raises `TypeError`; both exceptions are modelled as
`none`. -/
def pyDiv : Param → ℚ → Option Param
  | Param.scalar x, d => if d = 0 then none else some (Param.scalar (x / d))
  | Param.arr _, _ => none

/-- Modelled from the spec: `np.ones(n)` as used for the sustain segment.
A negative requested length is an error (numpy refuses negative
dimensions); otherwise the result is `n` ones. -/
def npOnes (n : ℤ) : Option (List ℚ) :=
  if n < 0 then none else some (List.replicate n.toNat 1)

/-- Arguments the Envelope Assembler hands to the Fade Curve Generator:
direction (`fade_out = 0` means fade-in), transition family, shape
exponent, decibel floor and zero-approach fraction.  The last three are
forwarded exactly as the assembler received or computed them. -/
structure FadeArgs where
  fade_out : ℤ
  method : String
  alpha : Param
  dB : Param
  perc : Param
deriving DecidableEq, Repr

/-- Arguments the Envelope Assembler hands to the Loudness Transition
Generator: the decibel deviation (the sustain level) and the curve
parameters. -/
structure LoudArgs where
  trans_dev : ℚ
  method : String
  alpha : Param
deriving DecidableEq, Repr

/-- The sample values of a curve of length `n`: sample `i` is given by the
curve family `shape` applied to the generator's arguments and `i`. -/
def fadeSamples (shape : FadeArgs → Nat → ℚ) (args : FadeArgs) (n : Nat) : List ℚ :=
  (List.range n).map (shape args)

/-- Modelled from the spec: the Fade Curve Generator `fade`
(`src/music/core/filters/fade.py`, not among the available sources).
Its contract (spec §4.1): given a target sample count `N ≥ 0`, produce an
ordered sequence of exactly `N` amplitude values, with `N = 0` giving the
empty sequence.  The pointwise values of the linear or
exponential-in-loudness curve are irrational in general and are kept
abstract as the curve family `shape`; a negative sample count is outside
the contract and is modelled as an error. -/
def fade (shape : FadeArgs → Nat → ℚ) (args : FadeArgs) (number_of_samples : ℤ) :
    Option (List ℚ) :=
  if number_of_samples < 0 then none
  else some (fadeSamples shape args number_of_samples.toNat)

/-- The sample values of a loudness transition of length `n`. -/
def loudSamples (shape : LoudArgs → Nat → ℚ) (args : LoudArgs) (n : Nat) : List ℚ :=
  (List.range n).map (shape args)

/-- Modelled from the spec: the Loudness Transition Generator `loud`
(`src/music/core/filters/loud.py`, not among the available sources).
Its contract (spec §4.2): given a target sample count `N`, produce exactly
`N` amplitude values forming a transition between two decibel levels; the
curve values are kept abstract as `shape`, and a negative sample count is
modelled as an error. -/
def loud (shape : LoudArgs → Nat → ℚ) (args : LoudArgs) (number_of_samples : ℤ) :
    Option (List ℚ) :=
  if number_of_samples < 0 then none
  else some (loudSamples shape args number_of_samples.toNat)

/-- The numeric primitives the Envelope Assembler draws from outside the
available sources: the two curve families (see `fade` and `loud`) and the
transcendental power function, where `pow10 x` models the real number
`10 ** x` used by the source for the sustain amplitude
`10 ** (sustain_level / 20.)`.  Every theorem below holds for every
instantiation of these primitives. -/
structure Curves where
  fadeShape : FadeArgs → Nat → ℚ
  loudShape : LoudArgs → Nat → ℚ
  pow10 : ℚ → ℚ

/-- The keyword parameters of `adsr`, with the source's default values.
`sonic_vector` is kept out of the record and passed separately, because
the source dispatches on whether it is an array at all. -/
structure Config where
  envelope_duration : ℚ := 2
  attack_duration : ℚ := 20
  decay_duration : ℚ := 20
  sustain_level : ℚ := -5
  release_duration : ℚ := 50
  transition : String := "exp"
  alpha : Param := Param.scalar 1
  db_dev : Param := Param.scalar (-80)
  to_zero : Param := Param.scalar 1
  number_of_samples : ℤ := 0
  sample_rate : ℚ := 44100
deriving DecidableEq, Repr

/-- The total length `Lambda` derived by `adsr`: length of `sonic_vector`
when an array was given, else `number_of_samples` when truthy (nonzero),
else `int(envelope_duration * sample_rate)`. -/
def adsrLambda (cfg : Config) (sonic_vector : Option (List ℚ)) : ℤ :=
  match sonic_vector with
  | some s => (s.length : ℤ)
  | none =>
    if cfg.number_of_samples ≠ 0 then cfg.number_of_samples
    else pyInt (cfg.envelope_duration * cfg.sample_rate)

/-- `Lambda_A = int(attack_duration * sample_rate * 0.001)`. -/
def adsrLambdaA (cfg : Config) : ℤ :=
  pyInt (cfg.attack_duration * cfg.sample_rate * (1 / 1000))

/-- `Lambda_D = int(decay_duration * sample_rate * 0.001)`. -/
def adsrLambdaD (cfg : Config) : ℤ :=
  pyInt (cfg.decay_duration * cfg.sample_rate * (1 / 1000))

/-- `Lambda_R = int(release_duration * sample_rate * 0.001)`. -/
def adsrLambdaR (cfg : Config) : ℤ :=
  pyInt (cfg.release_duration * cfg.sample_rate * (1 / 1000))

/-- The envelope-assembly steps of `adsr` after the total length `Lambda`
has been derived, in source order: attack fade-in, decay loudness
transition, constant sustain at `10 ** (sustain_level / 20)`, release
fade-out scaled by the sustain amplitude, concatenated with `np.hstack`.
Each step that can raise is an `Option` match. -/
def assembleEnvelope (C : Curves) (cfg : Config) (Lambda : ℤ) : Option (List ℚ) := do
  let perc ← pyDiv cfg.to_zero cfg.attack_duration
  let attack ← fade C.fadeShape ⟨0, cfg.transition, cfg.alpha, cfg.db_dev, perc⟩ (adsrLambdaA cfg)
  let decay ← loud C.loudShape ⟨cfg.sustain_level, cfg.transition, cfg.alpha⟩ (adsrLambdaD cfg)
  let a_S := C.pow10 (cfg.sustain_level / 20)
  let ones ← npOnes (Lambda - (adsrLambdaA cfg + adsrLambdaR cfg + adsrLambdaD cfg))
  let sustain := ones.map (fun x => x * a_S)
  let perc2 ← pyDiv cfg.to_zero cfg.release_duration
  let rel ← fade C.fadeShape ⟨1, cfg.transition, cfg.alpha, cfg.db_dev, perc2⟩ (adsrLambdaR cfg)
  some (attack ++ decay ++ sustain ++ rel.map (fun x => x * a_S))

/-- The Envelope Assembler `adsr`: derive `Lambda`, assemble the envelope,
then either return it or multiply it elementwise onto the supplied
signal. -/
def adsr (C : Curves) (cfg : Config) (sonic_vector : Option (List ℚ)) :
    Option (List ℚ) :=
  match assembleEnvelope C cfg (adsrLambda cfg sonic_vector) with
  | none => none
  | some AD =>
    match sonic_vector with
    | some s => some (List.zipWith (fun x y => x * y) s AD)
    | none => some AD

/-- Modelled from the spec: `np.vstack` on two one-dimensional buffers, as
used by `adsr_stereo`.  Stacking succeeds exactly when the lengths match,
giving the 2-row structure; otherwise numpy raises. -/
def npVstack (s1 s2 : List ℚ) : Option (List ℚ × List ℚ) :=
  if s1.length = s2.length then some (s1, s2) else none

/-- The Stereo Adapter `adsr_stereo`: split a supplied stereo pair into its
two channels (or use the no-signal placeholder for both), apply `adsr`
with the identical configuration to each, and stack the results. -/
def adsr_stereo (C : Curves) (cfg : Config) (sonic_vector : Option (List ℚ × List ℚ)) :
    Option (List ℚ × List ℚ) :=
  let sonic_vector1 := sonic_vector.map Prod.fst
  let sonic_vector2 := sonic_vector.map Prod.snd
  match adsr C cfg sonic_vector1, adsr C cfg sonic_vector2 with
  | some s1, some s2 => npVstack s1 s2
  | _, _ => none

/-- A concrete instantiation of the abstract curve primitives, used to
evaluate the model at concrete inputs. -/
def constCurves : Curves :=
  { fadeShape := fun _ _ => 0
    loudShape := fun _ _ => 0
    pow10 := fun _ => 0 }

/-- The spec's negative-remainder test case: three 3000 ms segments inside
a one-second envelope at the default sample rate. -/
def adsrCfgOverfull : Config :=
  { envelope_duration := 1, attack_duration := 3000, decay_duration := 3000,
    release_duration := 3000 }

/-- A configuration requesting a release of zero milliseconds. -/
def adsrCfgZeroRelease : Config := { release_duration := 0 }

/-- A small configuration whose four segments exactly fill the requested
eight samples (attack 2, decay 2, sustain 0, release 4). -/
def adsrCfgSnug : Config :=
  { envelope_duration := 1, attack_duration := 1, decay_duration := 1,
    release_duration := 2, number_of_samples := 8, sample_rate := 2000 }

/-- A configuration passing `alpha`, `db_dev` and `to_zero` as the
array-likes of per-segment values that the source's docstring documents
(three entries for alpha, two for db_dev and to_zero). -/
def adsrCfgArrayParams : Config :=
  { alpha := Param.arr [1, 1, 1], db_dev := Param.arr [-80, -80],
    to_zero := Param.arr [1, 1] }

/-- A configuration with a negative envelope duration together with an
explicit sample count. -/
def adsrCfgNegDuration : Config :=
  { envelope_duration := -1, attack_duration := 2, decay_duration := 3,
    release_duration := 4, number_of_samples := 10, sample_rate := 1000 }

/-- The default configuration: every parameter at its source default. -/
def adsrCfgDefault : Config := {}

/-- A configuration with attack duration zero whose segment sample counts
still sum below the total length. -/
def adsrCfgZeroAttack : Config := { attack_duration := 0, number_of_samples := 4410 }

/-- A small valid configuration: 2 + 3 + 4 segment samples inside a
1000-sample envelope. -/
def adsrCfgValidSmall : Config :=
  { envelope_duration := 1, attack_duration := 2, decay_duration := 3,
    release_duration := 4, sample_rate := 1000 }

/-- A small configuration for the stereo witness: explicit count of 10
samples, segments 2 + 3 + 4 plus one sustain sample. -/
def adsrCfgStereo : Config :=
  { envelope_duration := 2, attack_duration := 2, decay_duration := 3,
    release_duration := 4, number_of_samples := 10, sample_rate := 1000 }

/-- A configuration whose attack duration of 1/16 ms yields the fractional
sample count 2.75625 at the default sample rate. -/
def adsrCfgFracAttack : Config := { attack_duration := 1 / 16 }

/-- A zero-length request with the segment durations left at their
defaults. -/
def adsrCfgZeroLenDefaults : Config := { envelope_duration := 0, sample_rate := 1000 }

/-- A zero-length request whose segment durations are small enough to
yield zero samples each. -/
def adsrCfgZeroLenTiny : Config :=
  { envelope_duration := 0, attack_duration := 1 / 100, decay_duration := 1 / 100,
    release_duration := 1 / 100 }

section Lemmas

lemma fadeSamples_length (shape : FadeArgs → Nat → ℚ) (args : FadeArgs) (n : Nat) :
    (fadeSamples shape args n).length = n := by
  simp [fadeSamples]

lemma loudSamples_length (shape : LoudArgs → Nat → ℚ) (args : LoudArgs) (n : Nat) :
    (loudSamples shape args n).length = n := by
  simp [loudSamples]

lemma fade_eq_some {shape : FadeArgs → Nat → ℚ} {args : FadeArgs} {n : ℤ} {l : List ℚ} :
    fade shape args n = some l ↔ 0 ≤ n ∧ l = fadeSamples shape args n.toNat := by
  unfold fade
  rcases lt_or_le n 0 with h | h
  · rw [if_pos h]
    constructor
    · intro hc; cases hc
    · rintro ⟨h0, _⟩; omega
  · rw [if_neg (not_lt.mpr h)]
    constructor
    · intro hc; exact ⟨h, (Option.some_inj.mp hc).symm⟩
    · rintro ⟨_, rfl⟩; rfl

lemma loud_eq_some {shape : LoudArgs → Nat → ℚ} {args : LoudArgs} {n : ℤ} {l : List ℚ} :
    loud shape args n = some l ↔ 0 ≤ n ∧ l = loudSamples shape args n.toNat := by
  unfold loud
  rcases lt_or_le n 0 with h | h
  · rw [if_pos h]
    constructor
    · intro hc; cases hc
    · rintro ⟨h0, _⟩; omega
  · rw [if_neg (not_lt.mpr h)]
    constructor
    · intro hc; exact ⟨h, (Option.some_inj.mp hc).symm⟩
    · rintro ⟨_, rfl⟩; rfl

lemma npOnes_eq_some {n : ℤ} {l : List ℚ} :
    npOnes n = some l ↔ 0 ≤ n ∧ l = List.replicate n.toNat 1 := by
  unfold npOnes
  rcases lt_or_le n 0 with h | h
  · rw [if_pos h]
    constructor
    · intro hc; cases hc
    · rintro ⟨h0, _⟩; omega
  · rw [if_neg (not_lt.mpr h)]
    constructor
    · intro hc; exact ⟨h, (Option.some_inj.mp hc).symm⟩
    · rintro ⟨_, rfl⟩; rfl

lemma pyDiv_eq_some {p : Param} {d : ℚ} {r : Param} :
    pyDiv p d = some r ↔ ∃ x, p = Param.scalar x ∧ d ≠ 0 ∧ r = Param.scalar (x / d) := by
  cases p with
  | scalar x =>
    by_cases hd : d = 0
    · simp [pyDiv, hd]
    · simp only [pyDiv, if_neg hd]
      constructor
      · intro hc
        exact ⟨x, rfl, hd, (Option.some_inj.mp hc).symm⟩
      · rintro ⟨y, hy, -, rfl⟩
        cases hy; rfl
  | arr xs => simp [pyDiv]

/-- Inversion of a successful envelope assembly: success forces a scalar
`to_zero`, nonzero attack and release durations (the `perc` divisions),
nonnegative segment sample counts and a nonnegative sustain remainder, and
determines the result as the four-segment concatenation. -/
lemma assembleEnvelope_inv {C : Curves} {cfg : Config} {Lambda : ℤ} {AD : List ℚ}
    (h : assembleEnvelope C cfg Lambda = some AD) :
    ∃ z, cfg.to_zero = Param.scalar z ∧
      cfg.attack_duration ≠ 0 ∧ cfg.release_duration ≠ 0 ∧
      0 ≤ adsrLambdaA cfg ∧ 0 ≤ adsrLambdaD cfg ∧ 0 ≤ adsrLambdaR cfg ∧
      adsrLambdaA cfg + adsrLambdaD cfg + adsrLambdaR cfg ≤ Lambda ∧
      AD = fadeSamples C.fadeShape
            ⟨0, cfg.transition, cfg.alpha, cfg.db_dev, Param.scalar (z / cfg.attack_duration)⟩
            (adsrLambdaA cfg).toNat
        ++ loudSamples C.loudShape ⟨cfg.sustain_level, cfg.transition, cfg.alpha⟩
            (adsrLambdaD cfg).toNat
        ++ List.replicate (Lambda - (adsrLambdaA cfg + adsrLambdaR cfg + adsrLambdaD cfg)).toNat
            (C.pow10 (cfg.sustain_level / 20))
        ++ (fadeSamples C.fadeShape
            ⟨1, cfg.transition, cfg.alpha, cfg.db_dev, Param.scalar (z / cfg.release_duration)⟩
            (adsrLambdaR cfg).toNat).map (fun x => x * C.pow10 (cfg.sustain_level / 20)) := by
  simp only [assembleEnvelope, Option.bind_eq_bind, Option.bind_eq_some] at h
  obtain ⟨perc, hperc, attack, hatt, decay, hdec, ones, hones, perc2, hperc2, rel, hrel, hAD⟩ := h
  obtain ⟨z, hz, hdA, rfl⟩ := pyDiv_eq_some.mp hperc
  rw [hz] at hperc2
  obtain ⟨z2, hz2, hdR, rfl⟩ := pyDiv_eq_some.mp hperc2
  injection hz2 with hzz
  subst hzz
  obtain ⟨h0A, rfl⟩ := fade_eq_some.mp hatt
  obtain ⟨h0D, rfl⟩ := loud_eq_some.mp hdec
  obtain ⟨h0S, rfl⟩ := npOnes_eq_some.mp hones
  obtain ⟨h0R, rfl⟩ := fade_eq_some.mp hrel
  refine ⟨z, hz, hdA, hdR, h0A, h0D, h0R, by omega, ?_⟩
  obtain rfl := Option.some_inj.mp hAD
  simp [List.map_replicate]

/-- A successfully assembled envelope has exactly the derived total
length. -/
lemma assembleEnvelope_length {C : Curves} {cfg : Config} {Lambda : ℤ} {AD : List ℚ}
    (h : assembleEnvelope C cfg Lambda = some AD) :
    (AD.length : ℤ) = Lambda := by
  obtain ⟨z, -, -, -, h0A, h0D, h0R, hsum, rfl⟩ := assembleEnvelope_inv h
  simp only [List.length_append, List.length_map, List.length_replicate,
    fadeSamples_length, loudSamples_length]
  push_cast
  omega

/-- Construction of a successful envelope assembly: with a scalar
`to_zero`, nonzero attack and release durations, nonnegative segment
counts and a nonnegative sustain remainder, assembly succeeds and yields
the four-segment concatenation. -/
lemma assembleEnvelope_eq_some (C : Curves) (cfg : Config) (Lambda : ℤ) (z : ℚ)
    (hz : cfg.to_zero = Param.scalar z)
    (hdA : cfg.attack_duration ≠ 0) (hdR : cfg.release_duration ≠ 0)
    (h0A : 0 ≤ adsrLambdaA cfg) (h0D : 0 ≤ adsrLambdaD cfg) (h0R : 0 ≤ adsrLambdaR cfg)
    (hsum : adsrLambdaA cfg + adsrLambdaD cfg + adsrLambdaR cfg ≤ Lambda) :
    assembleEnvelope C cfg Lambda = some (
      fadeSamples C.fadeShape
          ⟨0, cfg.transition, cfg.alpha, cfg.db_dev, Param.scalar (z / cfg.attack_duration)⟩
          (adsrLambdaA cfg).toNat
      ++ loudSamples C.loudShape ⟨cfg.sustain_level, cfg.transition, cfg.alpha⟩
          (adsrLambdaD cfg).toNat
      ++ List.replicate (Lambda - (adsrLambdaA cfg + adsrLambdaR cfg + adsrLambdaD cfg)).toNat
          (C.pow10 (cfg.sustain_level / 20))
      ++ (fadeSamples C.fadeShape
          ⟨1, cfg.transition, cfg.alpha, cfg.db_dev, Param.scalar (z / cfg.release_duration)⟩
          (adsrLambdaR cfg).toNat).map (fun x => x * C.pow10 (cfg.sustain_level / 20))) := by
  have h0S : 0 ≤ Lambda - (adsrLambdaA cfg + adsrLambdaR cfg + adsrLambdaD cfg) := by omega
  simp only [assembleEnvelope, hz, pyDiv, if_neg hdA, if_neg hdR,
    fade, loud, npOnes, if_neg (not_lt.mpr h0A), if_neg (not_lt.mpr h0D),
    if_neg (not_lt.mpr h0R), if_neg (not_lt.mpr h0S),
    Option.bind_eq_bind, Option.some_bind]
  simp [List.map_replicate]

/-- When the attack, decay and release sample counts together exceed the
total length, envelope assembly never succeeds. -/
lemma assembleEnvelope_neg_remainder {C : Curves} {cfg : Config} {Lambda : ℤ}
    (h : Lambda < adsrLambdaA cfg + adsrLambdaD cfg + adsrLambdaR cfg) :
    assembleEnvelope C cfg Lambda = none := by
  cases hE : assembleEnvelope C cfg Lambda with
  | none => rfl
  | some AD =>
    obtain ⟨z, -, -, -, -, -, -, hsum, -⟩ := assembleEnvelope_inv hE
    omega

/-- When the attack or release millisecond duration is zero, the `perc`
division fails and envelope assembly never succeeds. -/
lemma assembleEnvelope_zero_duration {C : Curves} {cfg : Config} {Lambda : ℤ}
    (h : cfg.attack_duration = 0 ∨ cfg.release_duration = 0) :
    assembleEnvelope C cfg Lambda = none := by
  cases hE : assembleEnvelope C cfg Lambda with
  | none => rfl
  | some AD =>
    obtain ⟨z, -, hdA, hdR, -⟩ := assembleEnvelope_inv hE
    rcases h with h | h
    · exact absurd h hdA
    · exact absurd h hdR

/-- An `adsr` failure follows from an assembly failure. -/
lemma adsr_eq_none {C : Curves} {cfg : Config} {sv : Option (List ℚ)}
    (h : assembleEnvelope C cfg (adsrLambda cfg sv) = none) :
    adsr C cfg sv = none := by
  simp [adsr, h]

/-- On nonnegative rationals, Python truncation toward zero agrees with
the floor. -/
lemma pyInt_nonneg_floor {q : ℚ} (h : 0 ≤ q) : pyInt q = Int.floor q := by
  rw [pyInt, Int.tdiv_eq_ediv (Rat.num_nonneg.mpr h) (Int.natCast_nonneg _)]
  exact Rat.floor_def.symm

/-- The truncated sample count of a nonnegative quantity is within one
below it. -/
lemma pyInt_nonneg_bounds {q : ℚ} (h : 0 ≤ q) :
    (pyInt q : ℚ) ≤ q ∧ q - 1 < (pyInt q : ℚ) := by
  rw [pyInt_nonneg_floor h]
  exact ⟨Int.floor_le q, Int.sub_one_lt_floor q⟩

/-- The derived total length reads only `number_of_samples` when no signal
is supplied. -/
lemma adsrLambda_set_ns (cfg : Config) (n : ℤ) :
    adsrLambda { cfg with number_of_samples := n } none =
      if n ≠ 0 then n else pyInt (cfg.envelope_duration * cfg.sample_rate) := by
  cases cfg; rfl

/-- Envelope assembly never reads `number_of_samples`. -/
lemma assembleEnvelope_set_ns (C : Curves) (cfg : Config) (n : ℤ) (Lambda : ℤ) :
    assembleEnvelope C { cfg with number_of_samples := n } Lambda =
      assembleEnvelope C cfg Lambda := by
  cases cfg; rfl

/-- A buffer returned by `adsr` for a supplied signal has the signal's
length. -/
lemma adsr_signal_length {C : Curves} {cfg : Config} {s b : List ℚ}
    (h : adsr C cfg (some s) = some b) : b.length = s.length := by
  simp only [adsr] at h
  cases hE : assembleEnvelope C cfg (adsrLambda cfg (some s)) with
  | none => rw [hE] at h; cases h
  | some AD =>
    rw [hE] at h
    obtain rfl := Option.some_inj.mp h
    have hlen := assembleEnvelope_length hE
    simp only [adsrLambda, Nat.cast_inj] at hlen
    simp [List.length_zipWith, hlen]

end Lemmas

example : pyInt (441 / 10) = 44 := by with_unfolding_all decide
example : pyInt (-5 / 2) = -2 := by with_unfolding_all decide
example : pyInt (0 : ℚ) = 0 := by with_unfolding_all decide
example : adsrLambdaA { attack_duration := 20, sample_rate := 44100 } = 882 := by
  with_unfolding_all decide

/-- C2: for every configuration whose attack, decay and release sample
counts together exceed the total length, `adsr` signals an error (the
sustain buffer would have negative length) and never returns a buffer. -/
theorem C2_overfull_config_raises (C : Curves) (cfg : Config) (sv : Option (List ℚ))
    (h : adsrLambda cfg sv < adsrLambdaA cfg + adsrLambdaD cfg + adsrLambdaR cfg) :
    adsr C cfg sv = none :=
  adsr_eq_none (assembleEnvelope_neg_remainder h)

/-- C2 witness: the particular configuration `attack_duration = 3000`,
`decay_duration = 3000`, `release_duration = 3000`, `envelope_duration = 1`
exceeds the total length and raises. -/
theorem C2_overfull_config_raises_witness :
    adsrLambda adsrCfgOverfull none <
      adsrLambdaA adsrCfgOverfull + adsrLambdaD adsrCfgOverfull + adsrLambdaR adsrCfgOverfull ∧
    adsr constCurves adsrCfgOverfull none = none :=
  ⟨by with_unfolding_all decide,
   C2_overfull_config_raises constCurves adsrCfgOverfull none (by with_unfolding_all decide)⟩

/-- C10: for every call with `attack_duration = 0` or
`release_duration = 0`, the `perc = to_zero / duration` computation fails
(division by zero for a scalar `to_zero`, a type error for an array-like),
so the call raises and never returns a buffer: a zero-length attack or
release cannot be requested through a zero millisecond duration. -/
theorem C10_zero_duration_raises (C : Curves) (cfg : Config) (sv : Option (List ℚ))
    (h : cfg.attack_duration = 0 ∨ cfg.release_duration = 0) :
    adsr C cfg sv = none :=
  adsr_eq_none (assembleEnvelope_zero_duration h)

/-- C10 witness: a zero release duration raises. -/
theorem C10_zero_duration_raises_witness :
    (adsrCfgZeroRelease.attack_duration = 0 ∨ adsrCfgZeroRelease.release_duration = 0) ∧
    adsr constCurves adsrCfgZeroRelease none = none :=
  ⟨Or.inr rfl, C10_zero_duration_raises constCurves adsrCfgZeroRelease none (Or.inr rfl)⟩

/-- C9: in every envelope `adsr` assembles, the release segment is the
fade-out curve of the release sample count multiplied elementwise by the
sustain amplitude `10 ** (sustain_level / 20)`, placed at the end of the
envelope: the release starts from the sustain level, not from 1. -/
theorem C9_release_scaled_by_sustain (C : Curves) (cfg : Config) (AD : List ℚ)
    (h : adsr C cfg none = some AD) :
    ∃ pre z, cfg.to_zero = Param.scalar z ∧
      AD = pre ++ (fadeSamples C.fadeShape
          ⟨1, cfg.transition, cfg.alpha, cfg.db_dev, Param.scalar (z / cfg.release_duration)⟩
          (adsrLambdaR cfg).toNat).map (fun x => x * C.pow10 (cfg.sustain_level / 20)) := by
  simp only [adsr] at h
  cases hE : assembleEnvelope C cfg (adsrLambda cfg none) with
  | none => rw [hE] at h; cases h
  | some AD2 =>
    rw [hE] at h
    obtain rfl := Option.some_inj.mp h
    obtain ⟨z, hz, -, -, -, -, -, -, rfl⟩ := assembleEnvelope_inv hE
    exact ⟨_, z, hz, rfl⟩

/-- C9 witness: a concrete envelope whose release segment is the scaled
fade-out. -/
theorem C9_release_scaled_by_sustain_witness :
    adsr constCurves adsrCfgSnug none = some (List.replicate 8 0) ∧
    ∃ pre z, adsrCfgSnug.to_zero = Param.scalar z ∧
      List.replicate 8 0 = pre ++ (fadeSamples constCurves.fadeShape
          ⟨1, adsrCfgSnug.transition, adsrCfgSnug.alpha, adsrCfgSnug.db_dev,
            Param.scalar (z / adsrCfgSnug.release_duration)⟩
          (adsrLambdaR adsrCfgSnug).toNat).map
          (fun x => x * constCurves.pow10 (adsrCfgSnug.sustain_level / 20)) :=
  ⟨by with_unfolding_all decide,
   C9_release_scaled_by_sustain constCurves adsrCfgSnug (List.replicate 8 0)
     (by with_unfolding_all decide)⟩

/-- C7 (code bug): when `to_zero` (with `alpha` and `db_dev`) is supplied
as an array-like of per-segment values, the source never slices out the
per-segment entries; instead `perc = to_zero / attack_duration` divides
the whole list by a number, which raises `TypeError`, so the documented
array-like parameters are unusable. -/
theorem C7_array_params_raise :
    pyDiv adsrCfgArrayParams.to_zero adsrCfgArrayParams.attack_duration = none ∧
    adsr constCurves adsrCfgArrayParams none = none := by
  with_unfolding_all decide

/-- C1 counterexample: the configuration with `attack_duration = 0` and
`number_of_samples = 4410` is valid in the claim's sense (segment sample
counts `0 + 882 + 2205` sum below the total length `4410`), yet `adsr`
raises (division by zero in `perc = to_zero / attack_duration`) instead of
returning a buffer. -/
theorem C1_counterexample :
    adsrLambdaA adsrCfgZeroAttack + adsrLambdaD adsrCfgZeroAttack + adsrLambdaR adsrCfgZeroAttack
      ≤ adsrLambda adsrCfgZeroAttack none ∧
    adsr constCurves adsrCfgZeroAttack none = none := by
  with_unfolding_all decide

/-- C1 (amended): for every configuration with scalar `alpha`, `db_dev`
and `to_zero`, nonzero attack and release durations, nonnegative attack,
decay and release sample counts summing to at most the total length
`Lambda`, `adsr` returns the buffer attack ⧺ decay ⧺ sustain ⧺ release of
length exactly `Lambda`, with the sustain segment the constant
`10 ** (sustain_level / 20)` repeated for `Lambda` minus the attack,
release and decay sample counts. -/
theorem C1_valid_config_envelope (C : Curves) (cfg : Config) (z a d : ℚ)
    (hz : cfg.to_zero = Param.scalar z)
    (hal : cfg.alpha = Param.scalar a)
    (hdb : cfg.db_dev = Param.scalar d)
    (hdA : cfg.attack_duration ≠ 0) (hdR : cfg.release_duration ≠ 0)
    (h0A : 0 ≤ adsrLambdaA cfg) (h0D : 0 ≤ adsrLambdaD cfg) (h0R : 0 ≤ adsrLambdaR cfg)
    (hsum : adsrLambdaA cfg + adsrLambdaD cfg + adsrLambdaR cfg ≤ adsrLambda cfg none) :
    adsr C cfg none = some (
      fadeSamples C.fadeShape
          ⟨0, cfg.transition, cfg.alpha, cfg.db_dev, Param.scalar (z / cfg.attack_duration)⟩
          (adsrLambdaA cfg).toNat
      ++ loudSamples C.loudShape ⟨cfg.sustain_level, cfg.transition, cfg.alpha⟩
          (adsrLambdaD cfg).toNat
      ++ List.replicate
          (adsrLambda cfg none - (adsrLambdaA cfg + adsrLambdaR cfg + adsrLambdaD cfg)).toNat
          (C.pow10 (cfg.sustain_level / 20))
      ++ (fadeSamples C.fadeShape
          ⟨1, cfg.transition, cfg.alpha, cfg.db_dev, Param.scalar (z / cfg.release_duration)⟩
          (adsrLambdaR cfg).toNat).map (fun x => x * C.pow10 (cfg.sustain_level / 20))) ∧
    ∀ b, adsr C cfg none = some b → (b.length : ℤ) = adsrLambda cfg none := by
  have h := assembleEnvelope_eq_some C cfg (adsrLambda cfg none) z hz hdA hdR h0A h0D h0R hsum
  refine ⟨by simp [adsr, h], ?_⟩
  intro b hb
  simp only [adsr, h] at hb
  obtain rfl := Option.some_inj.mp hb
  exact assembleEnvelope_length h

/-- C1 witness: the amended statement instantiated at the small valid
configuration. -/
theorem C1_valid_config_envelope_witness :
    adsrCfgValidSmall.to_zero = Param.scalar 1 ∧
    adsrCfgValidSmall.alpha = Param.scalar 1 ∧
    adsrCfgValidSmall.db_dev = Param.scalar (-80) ∧
    adsrCfgValidSmall.attack_duration ≠ 0 ∧
    adsrCfgValidSmall.release_duration ≠ 0 ∧
    0 ≤ adsrLambdaA adsrCfgValidSmall ∧
    0 ≤ adsrLambdaD adsrCfgValidSmall ∧
    0 ≤ adsrLambdaR adsrCfgValidSmall ∧
    adsrLambdaA adsrCfgValidSmall + adsrLambdaD adsrCfgValidSmall + adsrLambdaR adsrCfgValidSmall
      ≤ adsrLambda adsrCfgValidSmall none ∧
    (adsr constCurves adsrCfgValidSmall none = some (
      fadeSamples constCurves.fadeShape
          ⟨0, adsrCfgValidSmall.transition, adsrCfgValidSmall.alpha, adsrCfgValidSmall.db_dev,
            Param.scalar (1 / adsrCfgValidSmall.attack_duration)⟩
          (adsrLambdaA adsrCfgValidSmall).toNat
      ++ loudSamples constCurves.loudShape
          ⟨adsrCfgValidSmall.sustain_level, adsrCfgValidSmall.transition, adsrCfgValidSmall.alpha⟩
          (adsrLambdaD adsrCfgValidSmall).toNat
      ++ List.replicate
          (adsrLambda adsrCfgValidSmall none -
            (adsrLambdaA adsrCfgValidSmall + adsrLambdaR adsrCfgValidSmall +
              adsrLambdaD adsrCfgValidSmall)).toNat
          (constCurves.pow10 (adsrCfgValidSmall.sustain_level / 20))
      ++ (fadeSamples constCurves.fadeShape
          ⟨1, adsrCfgValidSmall.transition, adsrCfgValidSmall.alpha, adsrCfgValidSmall.db_dev,
            Param.scalar (1 / adsrCfgValidSmall.release_duration)⟩
          (adsrLambdaR adsrCfgValidSmall).toNat).map
          (fun x => x * constCurves.pow10 (adsrCfgValidSmall.sustain_level / 20))) ∧
    ∀ b, adsr constCurves adsrCfgValidSmall none = some b →
      (b.length : ℤ) = adsrLambda adsrCfgValidSmall none) :=
  ⟨rfl, rfl, rfl, by with_unfolding_all decide, by with_unfolding_all decide,
   by with_unfolding_all decide, by with_unfolding_all decide, by with_unfolding_all decide,
   by with_unfolding_all decide,
   C1_valid_config_envelope constCurves adsrCfgValidSmall 1 1 (-80) rfl rfl rfl
     (by with_unfolding_all decide) (by with_unfolding_all decide)
     (by with_unfolding_all decide) (by with_unfolding_all decide)
     (by with_unfolding_all decide) (by with_unfolding_all decide)⟩

/-- C3: for every nonempty signal buffer `s` and every configuration,
`adsr` applied to `s` is the elementwise product of `s` with the envelope
that `adsr` computes for the same configuration, no signal and
`number_of_samples = len(s)` (and fails exactly when that envelope
fails); any buffer it returns has length `len(s)`. -/
theorem C3_signal_is_product_with_envelope (C : Curves) (cfg : Config) (s : List ℚ)
    (hs : s ≠ []) :
    adsr C cfg (some s) =
      Option.map (fun env => List.zipWith (fun x y => x * y) s env)
        (adsr C { cfg with number_of_samples := (s.length : ℤ) } none) ∧
    ∀ b, adsr C cfg (some s) = some b → b.length = s.length := by
  have hlen : (s.length : ℤ) ≠ 0 :=
    Nat.cast_ne_zero.mpr (fun h => hs (List.length_eq_zero.mp h))
  have h1 : adsrLambda { cfg with number_of_samples := (s.length : ℤ) } none = (s.length : ℤ) := by
    rw [adsrLambda_set_ns, if_pos hlen]
  refine ⟨?_, fun b hb => adsr_signal_length hb⟩
  simp only [adsr, h1, assembleEnvelope_set_ns, adsrLambda]
  cases hE : assembleEnvelope C cfg ((s.length : ℕ) : ℤ) <;> simp [hE, hs]

/-- C3 witness: the product identity at the default configuration and the
signal `[1, 2, 3]`. -/
theorem C3_signal_is_product_with_envelope_witness :
    ([1, 2, 3] : List ℚ) ≠ [] ∧
    (adsr constCurves adsrCfgDefault (some [1, 2, 3]) =
      Option.map (fun env => List.zipWith (fun x y => x * y) [1, 2, 3] env)
        (adsr constCurves
          { adsrCfgDefault with number_of_samples := (([1, 2, 3] : List ℚ).length : ℤ) } none) ∧
    ∀ b, adsr constCurves adsrCfgDefault (some [1, 2, 3]) = some b →
      b.length = ([1, 2, 3] : List ℚ).length) :=
  ⟨by decide, C3_signal_is_product_with_envelope constCurves adsrCfgDefault [1, 2, 3] (by decide)⟩

/-- C4 counterexample: with `attack_duration = 1/16` ms at the default
sample rate, the millisecond-to-samples product is 2.75625; the source's
`int()` truncation yields 2, while the claimed `round(...)` yields 3. -/
theorem C4_counterexample :
    adsrLambdaA adsrCfgFracAttack = 2 ∧
    round (adsrCfgFracAttack.attack_duration * adsrCfgFracAttack.sample_rate / 1000) = 3 := by
  constructor
  · with_unfolding_all decide
  · norm_num [adsrCfgFracAttack, round_eq]

/-- C4 (amended): `adsr` determines the total length as the signal length
when a signal is given, else `number_of_samples` when nonzero, else
`int(envelope_duration * sample_rate)` truncated toward zero (for
nonnegative products, the floor, bracketed within one below the product);
each millisecond duration converts to samples as
`int(duration_ms * sample_rate / 1000)`, truncation rather than
rounding. -/
theorem C4_length_derivation (cfg : Config) (s : List ℚ)
    (h0 : 0 ≤ cfg.envelope_duration * cfg.sample_rate)
    (hA : 0 ≤ cfg.attack_duration * cfg.sample_rate)
    (hD : 0 ≤ cfg.decay_duration * cfg.sample_rate)
    (hR : 0 ≤ cfg.release_duration * cfg.sample_rate) :
    adsrLambda cfg (some s) = (s.length : ℤ) ∧
    (cfg.number_of_samples ≠ 0 → adsrLambda cfg none = cfg.number_of_samples) ∧
    (cfg.number_of_samples = 0 →
      (adsrLambda cfg none : ℚ) ≤ cfg.envelope_duration * cfg.sample_rate ∧
      cfg.envelope_duration * cfg.sample_rate - 1 < (adsrLambda cfg none : ℚ)) ∧
    ((adsrLambdaA cfg : ℚ) ≤ cfg.attack_duration * cfg.sample_rate / 1000 ∧
      cfg.attack_duration * cfg.sample_rate / 1000 - 1 < (adsrLambdaA cfg : ℚ)) ∧
    ((adsrLambdaD cfg : ℚ) ≤ cfg.decay_duration * cfg.sample_rate / 1000 ∧
      cfg.decay_duration * cfg.sample_rate / 1000 - 1 < (adsrLambdaD cfg : ℚ)) ∧
    ((adsrLambdaR cfg : ℚ) ≤ cfg.release_duration * cfg.sample_rate / 1000 ∧
      cfg.release_duration * cfg.sample_rate / 1000 - 1 < (adsrLambdaR cfg : ℚ)) := by
  have k1000 : (0 : ℚ) ≤ 1 / 1000 := by norm_num
  refine ⟨rfl, ?_, ?_, ?_, ?_, ?_⟩
  · intro h
    simp [adsrLambda, h]
  · intro h
    simp only [adsrLambda, h, ne_eq, not_true_eq_false, if_false, ite_false]
    exact pyInt_nonneg_bounds h0
  · have e : adsrLambdaA cfg = pyInt (cfg.attack_duration * cfg.sample_rate / 1000) := by
      unfold adsrLambdaA; rw [mul_one_div]
    rw [e]
    exact pyInt_nonneg_bounds (div_nonneg hA (by norm_num))
  · have e : adsrLambdaD cfg = pyInt (cfg.decay_duration * cfg.sample_rate / 1000) := by
      unfold adsrLambdaD; rw [mul_one_div]
    rw [e]
    exact pyInt_nonneg_bounds (div_nonneg hD (by norm_num))
  · have e : adsrLambdaR cfg = pyInt (cfg.release_duration * cfg.sample_rate / 1000) := by
      unfold adsrLambdaR; rw [mul_one_div]
    rw [e]
    exact pyInt_nonneg_bounds (div_nonneg hR (by norm_num))

/-- C4 witness: the amended length derivation at the default
configuration and a two-sample signal. -/
theorem C4_length_derivation_witness :
    0 ≤ adsrCfgDefault.envelope_duration * adsrCfgDefault.sample_rate ∧
    0 ≤ adsrCfgDefault.attack_duration * adsrCfgDefault.sample_rate ∧
    0 ≤ adsrCfgDefault.decay_duration * adsrCfgDefault.sample_rate ∧
    0 ≤ adsrCfgDefault.release_duration * adsrCfgDefault.sample_rate ∧
    (adsrLambda adsrCfgDefault (some [7, 9]) = (([7, 9] : List ℚ).length : ℤ) ∧
    (adsrCfgDefault.number_of_samples ≠ 0 →
      adsrLambda adsrCfgDefault none = adsrCfgDefault.number_of_samples) ∧
    (adsrCfgDefault.number_of_samples = 0 →
      (adsrLambda adsrCfgDefault none : ℚ) ≤
        adsrCfgDefault.envelope_duration * adsrCfgDefault.sample_rate ∧
      adsrCfgDefault.envelope_duration * adsrCfgDefault.sample_rate - 1 <
        (adsrLambda adsrCfgDefault none : ℚ)) ∧
    ((adsrLambdaA adsrCfgDefault : ℚ) ≤
        adsrCfgDefault.attack_duration * adsrCfgDefault.sample_rate / 1000 ∧
      adsrCfgDefault.attack_duration * adsrCfgDefault.sample_rate / 1000 - 1 <
        (adsrLambdaA adsrCfgDefault : ℚ)) ∧
    ((adsrLambdaD adsrCfgDefault : ℚ) ≤
        adsrCfgDefault.decay_duration * adsrCfgDefault.sample_rate / 1000 ∧
      adsrCfgDefault.decay_duration * adsrCfgDefault.sample_rate / 1000 - 1 <
        (adsrLambdaD adsrCfgDefault : ℚ)) ∧
    ((adsrLambdaR adsrCfgDefault : ℚ) ≤
        adsrCfgDefault.release_duration * adsrCfgDefault.sample_rate / 1000 ∧
      adsrCfgDefault.release_duration * adsrCfgDefault.sample_rate / 1000 - 1 <
        (adsrLambdaR adsrCfgDefault : ℚ))) :=
  ⟨by with_unfolding_all decide, by with_unfolding_all decide,
   by with_unfolding_all decide, by with_unfolding_all decide,
   C4_length_derivation adsrCfgDefault [7, 9]
     (by with_unfolding_all decide) (by with_unfolding_all decide)
     (by with_unfolding_all decide) (by with_unfolding_all decide)⟩

/-- C6 counterexample: the zero-length request with the default segment
durations (`number_of_samples = 0`, no signal, an `envelope_duration`
yielding 0 samples) raises instead of returning an empty buffer, because
the default attack, decay and release sample counts make the sustain
remainder negative. -/
theorem C6_counterexample :
    adsrCfgZeroLenDefaults.number_of_samples = 0 ∧
    adsrLambda adsrCfgZeroLenDefaults none = 0 ∧
    adsr constCurves adsrCfgZeroLenDefaults none = none := by
  with_unfolding_all decide

/-- C6 (amended): a zero-length request (`number_of_samples = 0`, no
signal, an `envelope_duration` yielding 0 samples) returns the empty
buffer without error, provided the attack, decay and release sample
counts are also zero (with nonzero attack and release millisecond
durations and a scalar `to_zero`). -/
theorem C6_zero_length_returns_empty (C : Curves) (cfg : Config) (z : ℚ)
    (hz : cfg.to_zero = Param.scalar z)
    (hdA : cfg.attack_duration ≠ 0) (hdR : cfg.release_duration ≠ 0)
    (hns : cfg.number_of_samples = 0)
    (hlam : adsrLambda cfg none = 0)
    (hA0 : adsrLambdaA cfg = 0) (hD0 : adsrLambdaD cfg = 0) (hR0 : adsrLambdaR cfg = 0) :
    adsr C cfg none = some [] := by
  have h := assembleEnvelope_eq_some C cfg (adsrLambda cfg none) z hz hdA hdR
    (by omega) (by omega) (by omega) (by omega)
  rw [hlam, hA0, hD0, hR0] at h
  simp only [fadeSamples, loudSamples] at h
  simp at h
  simp [adsr, hlam, h]

/-- C6 witness: the amended statement at the tiny-duration zero-length
configuration. -/
theorem C6_zero_length_returns_empty_witness :
    adsrCfgZeroLenTiny.to_zero = Param.scalar 1 ∧
    adsrCfgZeroLenTiny.attack_duration ≠ 0 ∧
    adsrCfgZeroLenTiny.release_duration ≠ 0 ∧
    adsrCfgZeroLenTiny.number_of_samples = 0 ∧
    adsrLambda adsrCfgZeroLenTiny none = 0 ∧
    adsrLambdaA adsrCfgZeroLenTiny = 0 ∧
    adsrLambdaD adsrCfgZeroLenTiny = 0 ∧
    adsrLambdaR adsrCfgZeroLenTiny = 0 ∧
    adsr constCurves adsrCfgZeroLenTiny none = some [] :=
  ⟨rfl, by with_unfolding_all decide, by with_unfolding_all decide, rfl,
   by with_unfolding_all decide, by with_unfolding_all decide,
   by with_unfolding_all decide, by with_unfolding_all decide,
   C6_zero_length_returns_empty constCurves adsrCfgZeroLenTiny 1 rfl
     (by with_unfolding_all decide) (by with_unfolding_all decide) rfl
     (by with_unfolding_all decide) (by with_unfolding_all decide)
     (by with_unfolding_all decide) (by with_unfolding_all decide)⟩

/-- C5: `adsr_stereo` on a pair of equal-length signals returns the 2-row
structure of `adsr` applied to each signal with the identical
configuration; with no signal, both rows are the envelope `adsr` produces
for that configuration. -/
theorem C5_stereo_rows (C : Curves) (cfg : Config) (s1 s2 : List ℚ)
    (hlen : s1.length = s2.length) :
    (∀ b1 b2, adsr C cfg (some s1) = some b1 → adsr C cfg (some s2) = some b2 →
      adsr_stereo C cfg (some (s1, s2)) = some (b1, b2)) ∧
    (∀ env, adsr C cfg none = some env → adsr_stereo C cfg none = some (env, env)) := by
  constructor
  · intro b1 b2 h1 h2
    have l1 := adsr_signal_length h1
    have l2 := adsr_signal_length h2
    have e1 : (some (s1, s2) : Option (List ℚ × List ℚ)).map Prod.fst = some s1 := rfl
    have e2 : (some (s1, s2) : Option (List ℚ × List ℚ)).map Prod.snd = some s2 := rfl
    simp only [adsr_stereo, e1, e2, h1, h2]
    simp [npVstack, l1, l2, hlen]
  · intro env h
    have e1 : (none : Option (List ℚ × List ℚ)).map Prod.fst = none := rfl
    have e2 : (none : Option (List ℚ × List ℚ)).map Prod.snd = none := rfl
    simp only [adsr_stereo, e1, e2, h]
    simp [npVstack]

/-- C5 witness: the stereo adapter at a small configuration and the
constant signals of length 10. -/
theorem C5_stereo_rows_witness :
    (List.replicate 10 (1 : ℚ)).length = (List.replicate 10 (2 : ℚ)).length ∧
    adsr_stereo constCurves adsrCfgStereo
        (some (List.replicate 10 (1 : ℚ), List.replicate 10 (2 : ℚ))) =
      some (List.replicate 10 0, List.replicate 10 0) :=
  ⟨by decide,
   (C5_stereo_rows constCurves adsrCfgStereo (List.replicate 10 1) (List.replicate 10 2)
       (by decide)).1
     (List.replicate 10 0) (List.replicate 10 0)
     (by with_unfolding_all decide) (by with_unfolding_all decide)⟩

/-- C8 (code bug): no validation of sample rate or durations is performed:
a call with a negative `envelope_duration` and an explicit
`number_of_samples` silently ignores the negative duration and returns a
buffer instead of being rejected. -/
theorem C8_no_input_validation :
    adsrCfgNegDuration.envelope_duration < 0 ∧
    adsr constCurves adsrCfgNegDuration none = some (List.replicate 10 0) := by
  with_unfolding_all decide

end Music
